import Mathlib

/-!
Verification of the EMIS dental appointment backend (emis_be).

Shallow embedding of the appointment intake and moderation pipeline:
the CAPTCHA intake handler of `src/server.js` (first variant), the
moderation variant of `src/server.js` (second variant, with the admin
endpoints), the Mongoose schema of `src/models/appointments.js`, and the
rate-limiter configuration of `src/unnamed/part_001`.

Request bodies are modelled with `Option` fields (`none` = absent /
`undefined`); JavaScript falsiness of a string field is absence or the
empty string.  Timestamps are integers in milliseconds; the ECMAScript
`Date` civil-calendar arithmetic used by the timeframe endpoint is
embedded via the standard days-from-civil computation.
-/

/-- JavaScript falsiness of an optional string field of a request body:
`undefined`/`null` (modelled `none`) and `""` are falsy. -/
def falsyStr (v : Option String) : Bool :=
  match v with
  | none => true
  | some s => s = ""

/-- JavaScript string coercion applied to an optional field, as done by
`emailRegex.test(formData.email)`: `undefined` coerces to `"undefined"`. -/
def jsCoerce (v : Option String) : String :=
  match v with
  | none => "undefined"
  | some s => s

/-- Characters admitted by the class `[^\s@]` of the email regular
expression in `src/server.js`. -/
def isEmailChar (c : Char) : Bool :=
  !c.isWhitespace && c != '@'

/-- Split a character list at every occurrence of a separator. -/
def splitOnAt (sep : Char) : List Char → List (List Char)
  | [] => [[]]
  | c :: cs =>
    if c = sep then [] :: splitOnAt sep cs
    else
      match splitOnAt sep cs with
      | [] => [[c]]
      | g :: gs => (c :: g) :: gs

/-- JavaScript `String.prototype.trim`: strip whitespace from both
ends. -/
def jsTrim (s : String) : String :=
  String.mk (((s.data.dropWhile Char.isWhitespace).reverse.dropWhile
    Char.isWhitespace).reverse)

/-- JavaScript `String.prototype.toLowerCase` (ASCII case mapping). -/
def jsToLower (s : String) : String :=
  String.mk (s.data.map Char.toLower)

/-- JavaScript `String.prototype.substring(0, n)`. -/
def jsSubstrTo (s : String) (n : Nat) : String :=
  String.mk (s.data.take n)

/-- The test `/^[^\s@]+@[^\s@]+\.[^\s@]+$/.test s` of `src/server.js`:
exactly one `@`, a nonempty whitespace-free local part, and a domain part
containing a dot that is neither its first nor its last character. -/
def emailRegexTest (s : String) : Bool :=
  match splitOnAt '@' s.data with
  | [a, b] =>
    !a.isEmpty && a.all isEmailChar &&
    !b.isEmpty && b.all isEmailChar &&
    ((b.drop 1).dropLast.contains '.')
  | _ => false

/-- A request body for `POST /api/appointments`.  `none` marks an absent
field.  `date` is carried as an already-cast date value in milliseconds
(`none` = absent or falsy, matching `formData.date || undefined`).
`createdAtField` models a client attempt to supply `createdAt` in the
body; no handler reads it. -/
structure Body where
  recaptchaToken : Option String
  name : Option String
  email : Option String
  phone : Option String
  date : Option Int
  service : Option String
  message : Option String
  language : Option String
  createdAtField : Option Int
deriving DecidableEq

/-- Look up a body field by name, as `formData[field]` does for the
required-field filters (only `name`, `email`, `phone` occur). -/
def bodyField (b : Body) : String → Option String
  | "name" => b.name
  | "email" => b.email
  | "phone" => b.phone
  | _ => none

/-- The closed language enumeration of `appointmentSchema.language`. -/
def languageEnum : List String :=
  ["vietnamese", "english", "simplified", "traditional", "french", "korean"]

/-- A persisted appointment document. -/
structure AppointmentDoc where
  id : Nat
  name : String
  email : String
  phone : String
  date : Option Int
  service : String
  message : String
  language : String
  status : Option String
  createdAt : Int
deriving DecidableEq

/-- The field values passed to the `Appointment` constructor before the
schema applies setters, defaults and validation. -/
structure SaveInput where
  name : String
  email : String
  phone : String
  date : Option Int
  service : String
  message : String
  language : Option String
deriving DecidableEq

/-- Validation of `appointmentSchema` (src/models/appointments.js):
required `name`/`email`/`phone`/`date`/`service`/`language`, maxlength
100/100/20/500, and the case-sensitive language enumeration.  Returns the
list of violated-constraint messages. -/
def schemaErrors (name email phone : String) (date : Option Int)
    (service message language : String) : List String :=
  (if name = "" then ["Name is required"] else []) ++
  (if name.length > 100 then ["name exceeds maxlength"] else []) ++
  (if email = "" then ["Email is required"] else []) ++
  (if email.length > 100 then ["email exceeds maxlength"] else []) ++
  (if phone = "" then ["Phone is required"] else []) ++
  (if phone.length > 20 then ["phone exceeds maxlength"] else []) ++
  (if date.isNone then ["Appointment date is required"] else []) ++
  (if service = "" then ["Service is required"] else []) ++
  (if message.length > 500 then ["message exceeds maxlength"] else []) ++
  (if language = "" then ["Language is required"]
   else if language ∈ languageEnum then []
   else ["language is not a permitted enum value"])

/-- The `language` schema default: `vietnamese` when the path is
absent, otherwise the supplied value unchanged. -/
def defaultLanguage (l : Option String) : String :=
  match l with
  | none => "vietnamese"
  | some s => s

/-- `new Appointment(input)` followed by `save()`: schema setters
(`trim` on name/email/phone/message, `lowercase` on email), the
`language` default, the `createdAt` default assigned from the store
clock `now` at insert time, then schema validation. -/
def saveAppointment (input : SaveInput) (now : Int) (id : Nat) :
    Except (List String) AppointmentDoc :=
  let name := jsTrim input.name
  let email := jsToLower (jsTrim input.email)
  let phone := jsTrim input.phone
  let message := jsTrim input.message
  let language := defaultLanguage input.language
  match schemaErrors name email phone input.date input.service message language with
  | [] => Except.ok
      { id := id, name := name, email := email, phone := phone,
        date := input.date, service := input.service, message := message,
        language := language, status := none, createdAt := now }
  | errs => Except.error errs

/-- Outcome of an intake request: HTTP status, machine-readable error
tag, user-facing message, reCAPTCHA detail codes, the named missing
fields, whether the external verifier was called, and the persisted
record if any. -/
structure IntakeOutcome where
  status : Nat
  error : Option String
  message : String
  details : List String
  missingFields : List String
  verifierCalled : Bool
  saved : Option AppointmentDoc
deriving DecidableEq

/-- Result of the outbound `siteverify` call: the call itself fails, or
it returns a payload with a success flag and optional error codes. -/
inductive VerifyResult where
  | serviceError : VerifyResult
  | response (success : Bool) (errorCodes : Option (List String)) : VerifyResult
deriving DecidableEq

/-- The required-field list of the CAPTCHA intake variant. -/
def requiredFieldsCaptcha : List String := ["name", "phone"]

/-- The required-field list of the moderation intake variant. -/
def requiredFieldsMod : List String := ["name", "email", "phone"]

/-- The missing-field computation
`requiredFields.filter(field => !formData[field])`. -/
def missingOf (required : List String) (b : Body) : List String :=
  required.filter (fun f => falsyStr (bodyField b f))

/-- The constructor argument built by the CAPTCHA intake variant. -/
def mkCaptchaInput (b : Body) : SaveInput :=
  { name := jsSubstrTo (jsTrim (jsCoerce b.name)) 100
  , email := jsSubstrTo (jsToLower (jsTrim (jsCoerce b.email))) 100
  , phone := jsSubstrTo (jsTrim (jsCoerce b.phone)) 20
  , date := b.date
  , service := match b.service with
      | none => "General Checkup"
      | some s => if s = "" then "General Checkup" else s
  , message := jsSubstrTo (jsTrim (match b.message with | none => "" | some m => m)) 500
  , language := b.language }

/-- The CAPTCHA intake handler of `src/server.js` (first variant):
token presence check, `siteverify` call with its three outcomes,
required-field check over `name`/`phone`, email-format check, then
construction and save; a save-time `ValidationError` becomes a 400
`VALIDATION_ERROR` response. -/
def intakeCaptcha (vr : VerifyResult) (now : Int) (id : Nat) (b : Body) :
    IntakeOutcome :=
  if falsyStr b.recaptchaToken then
    { status := 400, error := some "RECAPTCHA_REQUIRED",
      message := "reCAPTCHA verification required", details := [],
      missingFields := [], verifierCalled := false, saved := none }
  else
    match vr with
    | VerifyResult.serviceError =>
      { status := 502, error := some "RECAPTCHA_SERVICE_ERROR",
        message := "Unable to verify reCAPTCHA at this time", details := [],
        missingFields := [], verifierCalled := true, saved := none }
    | VerifyResult.response ok codes =>
      if !ok then
        { status := 400, error := some "RECAPTCHA_FAILED",
          message := "Failed reCAPTCHA verification",
          details := match codes with | none => [] | some cs => cs,
          missingFields := [], verifierCalled := true, saved := none }
      else
        let missing := missingOf requiredFieldsCaptcha b
        if missing.length > 0 then
          { status := 400, error := some "MISSING_FIELDS",
            message := "Missing required fields: " ++ String.intercalate ", " missing,
            details := [], missingFields := missing, verifierCalled := true,
            saved := none }
        else if !(emailRegexTest (jsCoerce b.email)) then
          { status := 400, error := some "INVALID_EMAIL",
            message := "Please provide a valid email address", details := [],
            missingFields := [], verifierCalled := true, saved := none }
        else
          match saveAppointment (mkCaptchaInput b) now id with
          | Except.ok doc =>
            { status := 201, error := none,
              message := "Appointment request received! We will contact you soon.",
              details := [], missingFields := [], verifierCalled := true,
              saved := some doc }
          | Except.error _ =>
            { status := 400, error := some "VALIDATION_ERROR",
              message := "Invalid data provided", details := [],
              missingFields := [], verifierCalled := true, saved := none }

/-- The constructor argument built by the moderation intake variant
(no `language` key is passed). -/
def mkModInput (b : Body) : SaveInput :=
  { name := jsSubstrTo (jsTrim (jsCoerce b.name)) 100
  , email := jsSubstrTo (jsToLower (jsTrim (jsCoerce b.email))) 100
  , phone := jsSubstrTo (jsTrim (jsCoerce b.phone)) 20
  , date := b.date
  , service := match b.service with
      | none => "General Checkup"
      | some s => if s = "" then "General Checkup" else s
  , message := jsSubstrTo (jsTrim (match b.message with | none => "" | some m => m)) 500
  , language := none }

/-- The moderation-variant intake handler of `src/server.js` (second
variant, also the intake of `src/unnamed/part_001`): required-field
check over `name`/`email`/`phone`, then construction and save; save
failures fall to the generic 500 catch. -/
def intakeMod (now : Int) (id : Nat) (b : Body) : IntakeOutcome :=
  let missing := missingOf requiredFieldsMod b
  if missing.length > 0 then
    { status := 400, error := none,
      message := "Missing required fields: " ++ String.intercalate ", " missing,
      details := [], missingFields := missing, verifierCalled := false,
      saved := none }
  else
    match saveAppointment (mkModInput b) now id with
    | Except.ok doc =>
      { status := 201, error := none,
        message := "Appointment request received! We will contact you soon.",
        details := [], missingFields := [], verifierCalled := false,
        saved := some doc }
    | Except.error _ =>
      { status := 500, error := none, message := "Failed to process request",
        details := [], missingFields := [], verifierCalled := false,
        saved := none }

/-- Milliseconds per day. -/
def msPerDay : Int := 86400000

/-- Day number of a civil date (Gregorian, day 0 = 1970-01-01), for a
month `m` in `1..12`; the standard days-from-civil computation used to
embed ECMAScript `Date` arithmetic. -/
def daysFromCivil (y m d : Int) : Int :=
  let y1 := if m ≤ 2 then y - 1 else y
  let era := y1.fdiv 400
  let yoe := y1 - era * 400
  let mp := (m + 9).fmod 12
  let doy := (153 * mp + 2).fdiv 5 + d - 1
  let doe := yoe * 365 + yoe.fdiv 4 - yoe.fdiv 100 + doy
  era * 146097 + doe - 719468

/-- ECMAScript `MakeDay`/`MakeTime`: the time value for year `y`,
0-based month `m0` (any integer, normalized into the year), day `d`
(any integer, counted from the first of the month) and time-of-day
`tod` in milliseconds.  This is the normalization `setDate`,
`setMonth` and `setFullYear` perform. -/
def jsMakeTime (y m0 d tod : Int) : Int :=
  (daysFromCivil (y + m0.fdiv 12) (m0.fmod 12 + 1) 1 + (d - 1)) * msPerDay + tod

/-- The civil components of the current moment, as delivered by
`getFullYear`/`getMonth`/`getDate` and the time of day, with `month`
0-based. -/
structure NowParts where
  year : Int
  month : Nat
  day : Nat
  tod : Nat
deriving DecidableEq

/-- The time value of the current moment. -/
def nowMs (n : NowParts) : Int :=
  jsMakeTime n.year n.month n.day n.tod

/-- The `startDate` computed by the `switch (timeframe)` of
`GET /api/appointments/:timeframe`: start of the current day for
`today`, `setDate(getDate() - 7)` for `week`,
`setMonth(getMonth() - 1)` for `month`,
`setFullYear(getFullYear() - 1)` for `year`; `none` for every other
name (the 400 branch). -/
def timeframeStart (tf : String) (n : NowParts) : Option Int :=
  if tf = "today" then some (jsMakeTime n.year n.month n.day 0)
  else if tf = "week" then some (jsMakeTime n.year n.month ((n.day : Int) - 7) n.tod)
  else if tf = "month" then some (jsMakeTime n.year ((n.month : Int) - 1) n.day n.tod)
  else if tf = "year" then some (jsMakeTime (n.year - 1) n.month n.day n.tod)
  else none

/-- Descending `createdAt` order, the `.sort({ createdAt: -1 })` key. -/
def byCreatedAtDesc (a b : AppointmentDoc) : Prop :=
  b.createdAt ≤ a.createdAt

instance : DecidableRel byCreatedAtDesc :=
  fun a b => inferInstanceAs (Decidable (b.createdAt ≤ a.createdAt))

instance : IsTotal AppointmentDoc byCreatedAtDesc :=
  ⟨fun a b => le_total b.createdAt a.createdAt⟩

instance : IsTrans AppointmentDoc byCreatedAtDesc :=
  ⟨fun _ _ _ hab hbc => le_trans hbc hab⟩

/-- `Appointment.find(...).sort({ createdAt: -1 })` result ordering. -/
def sortStore (l : List AppointmentDoc) : List AppointmentDoc :=
  l.insertionSort byCreatedAtDesc

/-- The admin bearer check
`req.headers.authorization === Bearer + ADMIN_TOKEN` (with the falsy
guard on a missing header). -/
def authOK (h : Option String) (tok : String) : Bool :=
  match h with
  | none => false
  | some s => s ≠ "" && s = "Bearer " ++ tok

/-- Outcome of a moderation request: HTTP status, message, response
records, optional count, the resulting store, and whether the store was
reached at all. -/
structure ModOutcome where
  status : Nat
  message : Option String
  records : List AppointmentDoc
  count : Option Nat
  store : List AppointmentDoc
  storeAccessed : Bool
deriving DecidableEq

/-- The common 401 rejection of every moderation handler. -/
def unauthorizedOutcome (store : List AppointmentDoc) : ModOutcome :=
  { status := 401, message := some "Unauthorized", records := [],
    count := none, store := store, storeAccessed := false }

/-- `GET /api/appointments`: bearer check, then all records in
descending `createdAt` order. -/
def getAllH (h : Option String) (tok : String) (store : List AppointmentDoc) :
    ModOutcome :=
  if !(authOK h tok) then unauthorizedOutcome store
  else
    { status := 200, message := none, records := sortStore store,
      count := none, store := store, storeAccessed := true }

/-- `GET /api/appointments/:timeframe`: bearer check, timeframe switch
(unrecognized names answered 400 before any store access), then the
`createdAt` range query `[startDate, endDate]` sorted descending. -/
def getTimeframeH (h : Option String) (tok : String) (tf : String)
    (n : NowParts) (store : List AppointmentDoc) : ModOutcome :=
  if !(authOK h tok) then unauthorizedOutcome store
  else
    match timeframeStart tf n with
    | none =>
      { status := 400,
        message := some "Invalid timeframe. Use today, week, month, or year",
        records := [], count := none, store := store, storeAccessed := false }
    | some s =>
      let ends := nowMs n
      { status := 200, message := none,
        records := sortStore (store.filter
          (fun r => decide (s ≤ r.createdAt) && decide (r.createdAt ≤ ends))),
        count := none, store := store, storeAccessed := true }

/-- `GET /api/appointments/custom/:start/:end`: bearer check, date
parsing (`none` models an unparsable `NaN` date), extension of the end
date to `23:59:59.999`, then the range query with a count.  The parsed
parameters stand for `new Date(req.params.start)` /
`new Date(req.params.end)` at day start. -/
def getCustomH (h : Option String) (tok : String)
    (startParse endParse : Option Int) (store : List AppointmentDoc) :
    ModOutcome :=
  if !(authOK h tok) then unauthorizedOutcome store
  else
    match startParse, endParse with
    | some s, some e =>
      let eAdj := e + (msPerDay - 1)
      let recs := sortStore (store.filter
        (fun r => decide (s ≤ r.createdAt) && decide (r.createdAt ≤ eAdj)))
      { status := 200, message := none, records := recs,
        count := some recs.length, store := store, storeAccessed := true }
    | _, _ =>
      { status := 400, message := some "Invalid date format. Use YYYY-MM-DD",
        records := [], count := none, store := store, storeAccessed := false }

/-- `PUT /api/appointments/:id/confirm`: bearer check, then
`findByIdAndUpdate(id, { status: confirmed }, { new: true })`.
`appointmentSchema` declares no `status` path and the schema runs in
mongoose default strict mode, which strips non-schema paths from
updates: the requested `status` write is discarded, the matched record
is returned unchanged and the store is not modified; 404 when no record
has the identifier. -/
def confirmH (h : Option String) (tok : String) (id : Nat)
    (store : List AppointmentDoc) : ModOutcome :=
  if !(authOK h tok) then unauthorizedOutcome store
  else
    match store.find? (fun r => r.id = id) with
    | none =>
      { status := 404, message := some "Appointment not found", records := [],
        count := none, store := store, storeAccessed := true }
    | some r =>
      { status := 200, message := none, records := [r], count := none,
        store := store, storeAccessed := true }

/-- `DELETE /api/appointments/:id`: bearer check, then
`findByIdAndDelete(id)`; 404 when no record has the identifier. -/
def deleteH (h : Option String) (tok : String) (id : Nat)
    (store : List AppointmentDoc) : ModOutcome :=
  if !(authOK h tok) then unauthorizedOutcome store
  else
    match store.find? (fun r => r.id = id) with
    | none =>
      { status := 404, message := some "Appointment not found", records := [],
        count := none, store := store, storeAccessed := true }
    | some _ =>
      { status := 200, message := some "Appointment deleted successfully",
        records := [], count := none,
        store := store.filter (fun r => !(r.id = id : Bool)),
        storeAccessed := true }

/-- The window of the limiter configured in `src/unnamed/part_001`:
`15 * 60 * 1000` milliseconds. -/
def limiterWindowMs : Int := 15 * 60 * 1000

/-- The request maximum of the configured limiter. -/
def limiterMax : Nat := 50

/-- The fixed rejection message of the configured limiter. -/
def limiterMessage : String :=
  "Too many submissions from this IP, please try again later"

/-- Per-key limiter state: the hit count and the start of the current
window. -/
structure LimiterState where
  count : Nat
  windowStart : Int
deriving DecidableEq

/-- Modelled from the spec: the `express-rate-limit` middleware applied
by `app.use('/api/appointments', limiter)` — its implementation is not
under `src/`, only its configuration.  Per the spec it tracks request
counts per client key over the window, rejects once the count exceeds
the maximum within the window, and resets the count when the window
elapses.  One step processes one request at time `t` for one key and
returns the allow decision and the new state (`none` = key unseen). -/
def rateLimitStep (win : Int) (mx : Nat) :
    Option LimiterState → Int → Bool × LimiterState
  | none, t => (true, { count := 1, windowStart := t })
  | some s, t =>
    if win ≤ t - s.windowStart then
      (true, { count := 1, windowStart := t })
    else if mx < s.count + 1 then
      (false, { count := s.count + 1, windowStart := s.windowStart })
    else
      (true, { count := s.count + 1, windowStart := s.windowStart })

/-- Run the limiter over a sequence of request times for one key,
returning the decisions and the final state. -/
def limiterProcess (win : Int) (mx : Nat) :
    LimiterState → List Int → List Bool × LimiterState
  | st, [] => ([], st)
  | st, t :: ts =>
    let step := rateLimitStep win mx (some st) t
    let rest := limiterProcess win mx step.2 ts
    (step.1 :: rest.1, rest.2)

/-- The intake route of `src/unnamed/part_001` behind its limiter: a
rejected request is answered with the fixed message and HTTP 429
without the body being inspected; an allowed request proceeds to the
submission handler. -/
def limitedIntake (st : Option LimiterState) (t : Int) (now : Int)
    (id : Nat) (b : Body) : IntakeOutcome × LimiterState :=
  let step := rateLimitStep limiterWindowMs limiterMax st t
  if step.1 then (intakeMod now id b, step.2)
  else
    ({ status := 429, error := none, message := limiterMessage,
       details := [], missingFields := [], verifierCalled := false,
       saved := none }, step.2)

/-- A request body with every field absent. -/
def emptyBody : Body :=
  { recaptchaToken := none, name := none, email := none, phone := none,
    date := none, service := none, message := none, language := none,
    createdAtField := none }

/-- A fully valid request body used by witnesses. -/
def validBody : Body :=
  { recaptchaToken := some "tok", name := some "Alice", email := some "a@b.co",
    phone := some "5551234", date := some 1700000000000, service := none,
    message := none, language := some "english", createdAtField := none }

/-- C4: a request without a `recaptchaToken` is answered 400 with the
`RECAPTCHA_REQUIRED` condition before the verifier is called and before
the store is touched: the outcome is independent of the verifier, no
verifier call is recorded and nothing is persisted. -/
theorem c4_recaptcha_required (vr : VerifyResult) (now : Int) (id : Nat)
    (b : Body) (h : falsyStr b.recaptchaToken = true) :
    intakeCaptcha vr now id b =
      { status := 400, error := some "RECAPTCHA_REQUIRED",
        message := "reCAPTCHA verification required", details := [],
        missingFields := [], verifierCalled := false, saved := none } := by
  unfold intakeCaptcha
  rw [if_pos h]

theorem c4_recaptcha_required_witness :
    intakeCaptcha VerifyResult.serviceError 0 0 emptyBody =
      { status := 400, error := some "RECAPTCHA_REQUIRED",
        message := "reCAPTCHA verification required", details := [],
        missingFields := [], verifierCalled := false, saved := none } :=
  c4_recaptcha_required VerifyResult.serviceError 0 0 emptyBody (by decide)

/-- C5: with a token present, verification has exactly three outcomes:
a failing external call yields 502 `RECAPTCHA_SERVICE_ERROR` with
nothing persisted; a successful call reporting failure yields 400
`RECAPTCHA_FAILED` carrying the verifier's error codes with nothing
persisted; on success processing proceeds past the CAPTCHA gate (the
outcome carries no reCAPTCHA condition). -/
theorem c5_verify_outcomes (now : Int) (id : Nat) (b : Body)
    (h : falsyStr b.recaptchaToken = false) :
    (intakeCaptcha VerifyResult.serviceError now id b =
      { status := 502, error := some "RECAPTCHA_SERVICE_ERROR",
        message := "Unable to verify reCAPTCHA at this time", details := [],
        missingFields := [], verifierCalled := true, saved := none }) ∧
    (∀ codes, intakeCaptcha (VerifyResult.response false codes) now id b =
      { status := 400, error := some "RECAPTCHA_FAILED",
        message := "Failed reCAPTCHA verification", details := codes.getD [],
        missingFields := [], verifierCalled := true, saved := none }) ∧
    (∀ codes,
      (intakeCaptcha (VerifyResult.response true codes) now id b).verifierCalled = true ∧
      (intakeCaptcha (VerifyResult.response true codes) now id b).error ≠ some "RECAPTCHA_REQUIRED" ∧
      (intakeCaptcha (VerifyResult.response true codes) now id b).error ≠ some "RECAPTCHA_SERVICE_ERROR" ∧
      (intakeCaptcha (VerifyResult.response true codes) now id b).error ≠ some "RECAPTCHA_FAILED") := by
  refine ⟨?_, ?_, ?_⟩
  · unfold intakeCaptcha
    rw [if_neg (by simp [h])]
  · intro codes
    unfold intakeCaptcha
    rw [if_neg (by simp [h])]
    cases codes <;> simp
  · intro codes
    unfold intakeCaptcha
    rw [if_neg (by simp [h])]
    repeat' split
    all_goals (try simp_all)
    all_goals (split <;> simp_all)

theorem c5_verify_outcomes_witness :
    intakeCaptcha VerifyResult.serviceError 0 0 validBody =
      { status := 502, error := some "RECAPTCHA_SERVICE_ERROR",
        message := "Unable to verify reCAPTCHA at this time", details := [],
        missingFields := [], verifierCalled := true, saved := none } :=
  (c5_verify_outcomes 0 0 validBody (by decide)).1

/-- C1: a post-CAPTCHA submission missing any required field is answered
400 with a message naming exactly the missing required fields (first
conjunct: the CAPTCHA variant with required `name`/`phone`; second
conjunct: the moderation variant with required `name`/`email`/`phone`),
and nothing is persisted. -/
theorem c1_missing_fields :
    (∀ (now : Int) (id : Nat) (b : Body) (codes : Option (List String)),
      falsyStr b.recaptchaToken = false →
      missingOf requiredFieldsCaptcha b ≠ [] →
      (intakeCaptcha (VerifyResult.response true codes) now id b).status = 400 ∧
      (intakeCaptcha (VerifyResult.response true codes) now id b).error = some "MISSING_FIELDS" ∧
      (intakeCaptcha (VerifyResult.response true codes) now id b).message =
        "Missing required fields: " ++
          String.intercalate ", " (missingOf requiredFieldsCaptcha b) ∧
      (∀ f, f ∈ (intakeCaptcha (VerifyResult.response true codes) now id b).missingFields ↔
        f ∈ requiredFieldsCaptcha ∧ falsyStr (bodyField b f) = true) ∧
      (intakeCaptcha (VerifyResult.response true codes) now id b).saved = none) ∧
    (∀ (now : Int) (id : Nat) (b : Body),
      missingOf requiredFieldsMod b ≠ [] →
      (intakeMod now id b).status = 400 ∧
      (intakeMod now id b).message =
        "Missing required fields: " ++
          String.intercalate ", " (missingOf requiredFieldsMod b) ∧
      (∀ f, f ∈ (intakeMod now id b).missingFields ↔
        f ∈ requiredFieldsMod ∧ falsyStr (bodyField b f) = true) ∧
      (intakeMod now id b).saved = none) := by
  constructor
  · intro now id b codes htok hmiss
    have hlen : 0 < (missingOf requiredFieldsCaptcha b).length :=
      List.length_pos.mpr hmiss
    unfold intakeCaptcha
    rw [if_neg (by simp [htok])]
    simp only [Bool.not_true, Bool.false_eq_true, if_false, if_pos hlen]
    refine ⟨by trivial, by trivial, by trivial, ?_, by trivial⟩
    intro f
    simp [missingOf, List.mem_filter]
  · intro now id b hmiss
    have hlen : 0 < (missingOf requiredFieldsMod b).length :=
      List.length_pos.mpr hmiss
    unfold intakeMod
    simp only [if_pos hlen]
    refine ⟨by trivial, by trivial, ?_, by trivial⟩
    intro f
    simp [missingOf, List.mem_filter]

theorem c1_missing_fields_witness :
    ((intakeCaptcha (VerifyResult.response true none) 0 0
        { validBody with phone := none }).status = 400 ∧
      (intakeCaptcha (VerifyResult.response true none) 0 0
        { validBody with phone := none }).saved = none) ∧
    ((intakeMod 0 0 { validBody with email := some "" }).status = 400 ∧
      (intakeMod 0 0 { validBody with email := some "" }).saved = none) := by
  have h1 := c1_missing_fields.1 0 0 { validBody with phone := none } none
    (by decide) (by decide)
  have h2 := c1_missing_fields.2 0 0 { validBody with email := some "" }
    (by decide)
  exact ⟨⟨h1.1, h1.2.2.2.2⟩, ⟨h2.1, h2.2.2.2⟩⟩

/-- C10: in the CAPTCHA variant the email-format check runs even though
`email` is not a required field: with `name` and `phone` present but
`email` absent, the coerced string `"undefined"` fails the regular
expression and the submission is answered 400 `INVALID_EMAIL` — never a
`MISSING_FIELDS` condition naming `email` — and nothing is persisted. -/
theorem c10_absent_email_invalid (now : Int) (id : Nat) (b : Body)
    (codes : Option (List String))
    (htok : falsyStr b.recaptchaToken = false)
    (hname : falsyStr b.name = false)
    (hphone : falsyStr b.phone = false)
    (hemail : b.email = none) :
    intakeCaptcha (VerifyResult.response true codes) now id b =
      { status := 400, error := some "INVALID_EMAIL",
        message := "Please provide a valid email address", details := [],
        missingFields := [], verifierCalled := true, saved := none } := by
  have hmiss : missingOf requiredFieldsCaptcha b = [] := by
    simp [missingOf, requiredFieldsCaptcha, bodyField, hname, hphone]
  have hreg : emailRegexTest (jsCoerce b.email) = false := by
    rw [hemail]
    decide
  unfold intakeCaptcha
  rw [if_neg (by simp [htok])]
  simp [hmiss, hreg]

theorem c10_absent_email_invalid_witness :
    intakeCaptcha (VerifyResult.response true none) 0 0
        { validBody with email := none } =
      { status := 400, error := some "INVALID_EMAIL",
        message := "Please provide a valid email address", details := [],
        missingFields := [], verifierCalled := true, saved := none } :=
  c10_absent_email_invalid 0 0 { validBody with email := none } none
    (by decide) (by decide) (by decide) (by decide)

/-- A successful save yields exactly the document built from the schema
setters, defaults and the store clock, and certifies that the schema
validation produced no errors. -/
theorem saveAppointment_ok (input : SaveInput) (now : Int) (id : Nat)
    (doc : AppointmentDoc) (h : saveAppointment input now id = Except.ok doc) :
    doc = { id := id, name := jsTrim input.name,
            email := jsToLower (jsTrim input.email),
            phone := jsTrim input.phone, date := input.date,
            service := input.service, message := jsTrim input.message,
            language := defaultLanguage input.language,
            status := none, createdAt := now } ∧
    schemaErrors (jsTrim input.name) (jsToLower (jsTrim input.email))
      (jsTrim input.phone) input.date input.service (jsTrim input.message)
      (defaultLanguage input.language) = [] := by
  simp only [saveAppointment] at h
  split at h
  · next heq =>
    injection h with h2
    exact ⟨h2.symm, heq⟩
  · exact Except.noConfusion h

/-- With an absent date the schema validation always reports the
missing-date constraint. -/
theorem schemaErrors_date_none_ne_nil (name email phone service message
    language : String) :
    schemaErrors name email phone none service message language ≠ [] := by
  intro h
  have hm : "Appointment date is required" ∈
      schemaErrors name email phone none service message language := by
    unfold schemaErrors
    simp
  rw [h] at hm
  exact List.not_mem_nil _ hm

/-- With an absent date a save never succeeds. -/
theorem saveAppointment_date_none (input : SaveInput) (now : Int) (id : Nat)
    (h : input.date = none) :
    ∃ errs, saveAppointment input now id = Except.error errs := by
  cases heq : schemaErrors (jsTrim input.name) (jsToLower (jsTrim input.email))
      (jsTrim input.phone) input.date input.service (jsTrim input.message)
      (defaultLanguage input.language) with
  | nil =>
    rw [h] at heq
    exact absurd heq (schemaErrors_date_none_ne_nil _ _ _ _ _ _)
  | cons e es =>
    refine ⟨e :: es, ?_⟩
    simp only [saveAppointment]
    rw [heq]

/-- Empty schema validation certifies language membership in the closed
enumeration. -/
theorem schemaErrors_nil_language_mem (name email phone : String)
    (date : Option Int) (service message language : String)
    (h : schemaErrors name email phone date service message language = []) :
    language ∈ languageEnum := by
  by_contra hc
  rcases eq_or_ne language "" with he | he
  · have hm : "Language is required" ∈
        schemaErrors name email phone date service message language := by
      unfold schemaErrors
      simp [he]
    rw [h] at hm
    exact List.not_mem_nil _ hm
  · have hm : "language is not a permitted enum value" ∈
        schemaErrors name email phone date service message language := by
      unfold schemaErrors
      simp [he, hc]
    rw [h] at hm
    exact List.not_mem_nil _ hm

/-- Any record the CAPTCHA intake persists is the result of a
successful save of its constructor argument. -/
theorem intakeCaptcha_saved (vr : VerifyResult) (now : Int) (id : Nat)
    (b : Body) (doc : AppointmentDoc)
    (h : (intakeCaptcha vr now id b).saved = some doc) :
    saveAppointment (mkCaptchaInput b) now id = Except.ok doc := by
  unfold intakeCaptcha at h
  simp only [] at h
  repeat' split at h
  all_goals simp_all

/-- A body identical to `validBody` but with no `date`. -/
def noDateBody : Body := { validBody with date := none }

/-- C2 counterexample: an otherwise-valid CAPTCHA intake submission
omitting `date` does not succeed — the schema requires the date, the
save fails validation, the handler answers 400 `VALIDATION_ERROR` and
nothing is persisted — refuting the claim that creation succeeds with
no date. -/
theorem c2_counterexample :
    (intakeCaptcha (VerifyResult.response true none) 1700000000123 7 noDateBody).saved = none ∧
    (intakeCaptcha (VerifyResult.response true none) 1700000000123 7 noDateBody).status = 400 ∧
    (intakeCaptcha (VerifyResult.response true none) 1700000000123 7 noDateBody).error =
      some "VALIDATION_ERROR" := by
  decide

/-- C2 amended: `date` is required by the persistence schema.  For any
submission with `date` absent nothing is ever persisted, and an
otherwise-valid post-CAPTCHA submission omitting `date` is answered 400
with the `VALIDATION_ERROR` condition. -/
theorem c2_date_required (vr : VerifyResult) (now : Int) (id : Nat)
    (b : Body) (hdate : b.date = none) :
    (intakeCaptcha vr now id b).saved = none ∧
    (∀ codes,
      falsyStr b.recaptchaToken = false →
      missingOf requiredFieldsCaptcha b = [] →
      emailRegexTest (jsCoerce b.email) = true →
      intakeCaptcha (VerifyResult.response true codes) now id b =
        { status := 400, error := some "VALIDATION_ERROR",
          message := "Invalid data provided", details := [],
          missingFields := [], verifierCalled := true, saved := none }) := by
  have hdate2 : (mkCaptchaInput b).date = none := by
    simp [mkCaptchaInput, hdate]
  obtain ⟨errs, herrs⟩ := saveAppointment_date_none (mkCaptchaInput b) now id hdate2
  constructor
  · cases hs : (intakeCaptcha vr now id b).saved with
    | none => rfl
    | some doc =>
      have hok := intakeCaptcha_saved vr now id b doc hs
      rw [herrs] at hok
      exact Except.noConfusion hok
  · intro codes htok hmiss hreg
    unfold intakeCaptcha
    rw [if_neg (by simp [htok])]
    simp [hmiss, hreg, herrs]

theorem c2_date_required_witness :
    (intakeCaptcha (VerifyResult.response true none) 1700000000123 7 noDateBody).saved = none ∧
    intakeCaptcha (VerifyResult.response true none) 1700000000123 7 noDateBody =
      { status := 400, error := some "VALIDATION_ERROR",
        message := "Invalid data provided", details := [],
        missingFields := [], verifierCalled := true, saved := none } := by
  have h := c2_date_required (VerifyResult.response true none) 1700000000123 7
    noDateBody (by decide)
  exact ⟨h.1, h.2 none (by decide) (by decide) (by decide)⟩

/-- A body identical to `validBody` but with `language` capitalized. -/
def englishBody : Body := { validBody with language := some "English" }

/-- C6 counterexample: an otherwise-valid submission whose `language`
is `English` — in the six-value set only up to letter case — is not
accepted: the schema enum check is case-sensitive, the save fails, the
handler answers 400 `VALIDATION_ERROR` and nothing is stored. -/
theorem c6_counterexample :
    (intakeCaptcha (VerifyResult.response true none) 0 3 englishBody).saved = none ∧
    (intakeCaptcha (VerifyResult.response true none) 0 3 englishBody).status = 400 ∧
    (intakeCaptcha (VerifyResult.response true none) 0 3 englishBody).error =
      some "VALIDATION_ERROR" := by
  decide

/-- C6 amended: every stored `language` value belongs to the closed
six-value set, but no lowercase normalization is applied — the stored
value is exactly the supplied one (or the schema default `vietnamese`
when absent), and a supplied value outside the exact lowercase set is
never persisted. -/
theorem c6_language_case_sensitive (vr : VerifyResult) (now : Int)
    (id : Nat) (b : Body) :
    (∀ doc, (intakeCaptcha vr now id b).saved = some doc →
      doc.language ∈ languageEnum ∧
      doc.language = defaultLanguage b.language) ∧
    (∀ l, b.language = some l → l ∉ languageEnum →
      (intakeCaptcha vr now id b).saved = none) := by
  have hmain : ∀ doc, (intakeCaptcha vr now id b).saved = some doc →
      doc.language ∈ languageEnum ∧ doc.language = defaultLanguage b.language := by
    intro doc hs
    have hok := intakeCaptcha_saved vr now id b doc hs
    have hchar := saveAppointment_ok (mkCaptchaInput b) now id doc hok
    have hlang : (mkCaptchaInput b).language = b.language := by
      simp [mkCaptchaInput]
    constructor
    · have hmem := schemaErrors_nil_language_mem _ _ _ _ _ _ _ hchar.2
      rw [hchar.1]
      exact hmem
    · rw [hchar.1]
      simp [hlang]
  refine ⟨hmain, ?_⟩
  intro l hl hnot
  cases hs : (intakeCaptcha vr now id b).saved with
  | none => rfl
  | some doc =>
    have h2 := hmain doc hs
    have hdl : doc.language = l := by
      rw [h2.2, hl]
      rfl
    exact absurd (hdl ▸ h2.1) hnot

theorem c6_language_case_sensitive_witness :
    (intakeCaptcha (VerifyResult.response true none) 0 3 englishBody).saved = none := by
  have h := (c6_language_case_sensitive (VerifyResult.response true none) 0 3
    englishBody).2 "English" (by decide) (by decide)
  exact h

/-- The document persisted for `validBody` at store time 5. -/
def validDoc : AppointmentDoc :=
  { id := 1, name := "Alice", email := "a@b.co", phone := "5551234",
    date := some 1700000000000, service := "General Checkup", message := "",
    language := "english", status := none, createdAt := 5 }

/-- C9 failing-input evaluation: `createdAt` is indeed assigned from
the store clock at insert for every body (first conjunct), but an
authorized confirm of the existing record 1 persists no status change:
`appointmentSchema` has no `status` path, mongoose strict mode strips
the `{ status: confirmed }` update, the store is returned byte-for-byte
unchanged and the matched record — returned as the response — still
carries no `confirmed` status, contradicting the claimed
status-updating confirm transition. -/
theorem c9_confirm_strict_mode_noop :
    (∀ (vr : VerifyResult) (now : Int) (id : Nat) (b : Body)
      (doc : AppointmentDoc),
      (intakeCaptcha vr now id b).saved = some doc → doc.createdAt = now) ∧
    (∀ (h : Option String) (tok : String) (id : Nat)
      (store : List AppointmentDoc),
      (confirmH h tok id store).store = store) ∧
    confirmH (some "Bearer t") "t" 1 [validDoc] =
      { status := 200, message := none, records := [validDoc],
        count := none, store := [validDoc], storeAccessed := true } ∧
    validDoc.status ≠ some "confirmed" := by
  refine ⟨?_, ?_, by decide, by decide⟩
  · intro vr now id b doc hs
    have hok := intakeCaptcha_saved vr now id b doc hs
    have hchar := saveAppointment_ok (mkCaptchaInput b) now id doc hok
    rw [hchar.1]
  · intro h tok id store
    unfold confirmH
    by_cases hauth : authOK h tok = true
    · rw [if_neg (by simp [hauth])]
      cases hf : store.find? (fun r => r.id = id) <;> rfl
    · rw [if_pos (by simp at hauth ⊢; exact hauth)]
      rfl

theorem c9_confirm_strict_mode_noop_witness :
    validDoc.createdAt = 5 ∧
    (confirmH (some "Bearer t") "t" 1 [validDoc]).store = [validDoc] := by
  constructor
  · exact c9_confirm_strict_mode_noop.1 (VerifyResult.response true none) 5 1
      validBody validDoc (by decide)
  · exact c9_confirm_strict_mode_noop.2.1 (some ("Bearer t")) "t" 1 [validDoc]

/-- C8: every moderation handler — list-all, list-by-timeframe,
list-by-custom-range, confirm, delete — answers 401 `Unauthorized`
when the authorization header is absent or differs from the expected
bearer credential, leaves the store unchanged and performs no store
operation. -/
theorem c8_unauthorized (h : Option String) (tok tf : String)
    (n : NowParts) (sp ep : Option Int) (id : Nat)
    (store : List AppointmentDoc) (hauth : authOK h tok = false) :
    getAllH h tok store = unauthorizedOutcome store ∧
    getTimeframeH h tok tf n store = unauthorizedOutcome store ∧
    getCustomH h tok sp ep store = unauthorizedOutcome store ∧
    confirmH h tok id store = unauthorizedOutcome store ∧
    deleteH h tok id store = unauthorizedOutcome store ∧
    (unauthorizedOutcome store).status = 401 ∧
    (unauthorizedOutcome store).store = store ∧
    (unauthorizedOutcome store).storeAccessed = false := by
  unfold getAllH getTimeframeH getCustomH confirmH deleteH
  rw [if_pos (by simp [hauth]), if_pos (by simp [hauth]),
    if_pos (by simp [hauth]), if_pos (by simp [hauth]),
    if_pos (by simp [hauth])]
  exact ⟨rfl, rfl, rfl, rfl, rfl, rfl, rfl, rfl⟩

theorem c8_unauthorized_witness :
    getAllH none "t" [validDoc] = unauthorizedOutcome [validDoc] ∧
    getTimeframeH (some "Bearer wrong") "t" "today"
      { year := 2024, month := 0, day := 1, tod := 0 } [validDoc] =
      unauthorizedOutcome [validDoc] ∧
    confirmH (some "") "t" 1 [validDoc] = unauthorizedOutcome [validDoc] ∧
    deleteH none "t" 1 [validDoc] = unauthorizedOutcome [validDoc] := by
  have h1 := c8_unauthorized none "t" "today"
    { year := 2024, month := 0, day := 1, tod := 0 } none none 1 [validDoc]
    (by decide)
  have h2 := c8_unauthorized (some "Bearer wrong") "t" "today"
    { year := 2024, month := 0, day := 1, tod := 0 } none none 1 [validDoc]
    (by decide)
  have h3 := c8_unauthorized (some "") "t" "today"
    { year := 2024, month := 0, day := 1, tod := 0 } none none 1 [validDoc]
    (by decide)
  exact ⟨h1.1, h2.2.1, h3.2.2.2.1, h1.2.2.2.2.1⟩

/-- C3 amended: `today` starts at the start of the current day and
`week` exactly 7 days back, but `month` and `year` are computed by
calendar arithmetic — one month-index decrement and one year decrement
with ECMAScript day-overflow normalization — not by 30/365-day offsets;
the end boundary is now; an authorized query returns exactly the
records with `createdAt` in `[start, end]` in descending `createdAt`
order, and every unrecognized timeframe name is answered 400 without
touching the store. -/
theorem c3_timeframe_calendar (h : Option String) (tok tf : String)
    (n : NowParts) (store : List AppointmentDoc)
    (hauth : authOK h tok = true) :
    timeframeStart "today" n = some (jsMakeTime n.year n.month n.day 0) ∧
    timeframeStart "week" n = some (nowMs n - 7 * msPerDay) ∧
    timeframeStart "month" n =
      some (jsMakeTime n.year ((n.month : Int) - 1) n.day n.tod) ∧
    timeframeStart "year" n =
      some (jsMakeTime (n.year - 1) n.month n.day n.tod) ∧
    (timeframeStart tf n = none →
      getTimeframeH h tok tf n store =
        { status := 400,
          message := some "Invalid timeframe. Use today, week, month, or year",
          records := [], count := none, store := store,
          storeAccessed := false }) ∧
    (∀ s, timeframeStart tf n = some s →
      (getTimeframeH h tok tf n store).status = 200 ∧
      ((getTimeframeH h tok tf n store).records).Perm
        (store.filter (fun r => decide (s ≤ r.createdAt) &&
          decide (r.createdAt ≤ nowMs n))) ∧
      List.Sorted byCreatedAtDesc (getTimeframeH h tok tf n store).records ∧
      (∀ r, r ∈ (getTimeframeH h tok tf n store).records ↔
        r ∈ store ∧ s ≤ r.createdAt ∧ r.createdAt ≤ nowMs n)) := by
  refine ⟨by simp [timeframeStart], ?_, by simp [timeframeStart],
    by simp [timeframeStart], ?_, ?_⟩
  · have hred : timeframeStart "week" n =
        some (jsMakeTime n.year n.month ((n.day : Int) - 7) n.tod) := by
      simp [timeframeStart]
    rw [hred]
    congr 1
    unfold nowMs jsMakeTime
    ring
  · intro h0
    unfold getTimeframeH
    rw [if_neg (by simp [hauth]), h0]
  · intro s hs
    unfold getTimeframeH sortStore
    rw [if_neg (by simp [hauth]), hs]
    simp only []
    refine ⟨by trivial, List.perm_insertionSort _ _,
      List.sorted_insertionSort _ _, ?_⟩
    intro r
    constructor
    · intro hrm
      have hm := (List.perm_insertionSort byCreatedAtDesc _).mem_iff.mp hrm
      rw [List.mem_filter] at hm
      have hb := hm.2
      simp only [Bool.and_eq_true, decide_eq_true_eq] at hb
      exact ⟨hm.1, hb.1, hb.2⟩
    · rintro ⟨hr1, hr2, hr3⟩
      apply (List.perm_insertionSort byCreatedAtDesc _).mem_iff.mpr
      rw [List.mem_filter]
      exact ⟨hr1, by simp [hr2, hr3]⟩

/-- A record created 29 days before 2023-03-15T12:00. -/
def monthProbeRec : AppointmentDoc :=
  { id := 9, name := "B", email := "b@c.de", phone := "2", date := none,
    service := "General Checkup", message := "", language := "vietnamese",
    status := none,
    createdAt :=
      nowMs { year := 2023, month := 2, day := 15, tod := 43200000 } -
        29 * msPerDay }

/-- C3 counterexample: at the moment 2023-03-15T12:00, a stored record
created 29 days earlier (2023-02-14T12:00) lies inside the 30-days-back
window the claim asserts for `month`, yet the authorized `month` query
returns no records, because the code's boundary is the calendar month
back (2023-02-15T12:00). -/
theorem c3_counterexample :
    (getTimeframeH (some "Bearer t") "t" "month"
      { year := 2023, month := 2, day := 15, tod := 43200000 }
      [monthProbeRec]).records = [] ∧
    monthProbeRec ∈ [monthProbeRec] ∧
    nowMs { year := 2023, month := 2, day := 15, tod := 43200000 } -
      30 * msPerDay ≤ monthProbeRec.createdAt ∧
    monthProbeRec.createdAt ≤
      nowMs { year := 2023, month := 2, day := 15, tod := 43200000 } := by
  decide

theorem c3_timeframe_calendar_witness :
    getTimeframeH (some "Bearer t") "t" "bogus"
      { year := 2023, month := 2, day := 15, tod := 43200000 }
      [monthProbeRec] =
      { status := 400,
        message := some "Invalid timeframe. Use today, week, month, or year",
        records := [], count := none, store := [monthProbeRec],
        storeAccessed := false } ∧
    (getTimeframeH (some "Bearer t") "t" "month"
      { year := 2023, month := 2, day := 15, tod := 43200000 }
      [monthProbeRec]).status = 200 := by
  have h1 := c3_timeframe_calendar (some "Bearer t") "t" "bogus"
    { year := 2023, month := 2, day := 15, tod := 43200000 } [monthProbeRec]
    (by decide)
  have h2 := c3_timeframe_calendar (some "Bearer t") "t" "month"
    { year := 2023, month := 2, day := 15, tod := 43200000 } [monthProbeRec]
    (by decide)
  exact ⟨h1.2.2.2.2.1 (by decide),
    (h2.2.2.2.2.2 (jsMakeTime 2023 1 15 43200000) (by decide)).1⟩

/-- Processing a request list splits over append. -/
theorem limiterProcess_append (win : Int) (mx : Nat) (st : LimiterState)
    (l1 l2 : List Int) :
    limiterProcess win mx st (l1 ++ l2) =
      ((limiterProcess win mx st l1).1 ++
        (limiterProcess win mx (limiterProcess win mx st l1).2 l2).1,
       (limiterProcess win mx (limiterProcess win mx st l1).2 l2).2) := by
  induction l1 generalizing st with
  | nil => simp [limiterProcess]
  | cons t ts ih => simp [limiterProcess, ih]

/-- While the window has not elapsed and the count stays within the
maximum, every request is allowed and the count advances by the number
of requests, with the window start unchanged. -/
theorem limiterProcess_all_allowed (win : Int) (mx : Nat) :
    ∀ (ts : List Int) (c : Nat) (t0 : Int),
      (∀ t ∈ ts, t0 ≤ t ∧ t - t0 < win) →
      c + ts.length ≤ mx →
      limiterProcess win mx { count := c, windowStart := t0 } ts =
        (List.replicate ts.length true,
         { count := c + ts.length, windowStart := t0 }) := by
  intro ts
  induction ts with
  | nil =>
    intro c t0 _ _
    simp [limiterProcess]
  | cons t ts ih =>
    intro c t0 hin hle
    have ht := hin t (List.mem_cons_self t ts)
    have hlen2 : (t :: ts).length = ts.length + 1 := rfl
    have hstep : rateLimitStep win mx (some { count := c, windowStart := t0 }) t =
        (true, { count := c + 1, windowStart := t0 }) := by
      simp only [rateLimitStep]
      rw [if_neg (by omega), if_neg (by omega)]
    have hrest := ih (c + 1) t0
      (fun u hu => hin u (List.mem_cons_of_mem t hu)) (by omega)
    have hcount : c + 1 + ts.length = c + (ts.length + 1) := by omega
    simp [limiterProcess, hstep, hrest, hlen2, List.replicate_succ, hcount]

/-- C7: for any 51 submissions from one client key within a single
15-minute window, the first 50 are allowed regardless of payload (an
allowed request is passed unchanged to the submission handler, a
rejected one is answered 429 with the fixed message without the body
being read), the 51st is rejected, and a request arriving after the
window has elapsed resets the count to 1 and is allowed. -/
theorem c7_rate_limiter :
    (∀ (t0 : Int) (ts : List Int),
      ts.length = limiterMax →
      (∀ t ∈ ts, t0 ≤ t ∧ t - t0 < limiterWindowMs) →
      (rateLimitStep limiterWindowMs limiterMax none t0).1 = true ∧
      (limiterProcess limiterWindowMs limiterMax
        (rateLimitStep limiterWindowMs limiterMax none t0).2 ts).1 =
        List.replicate (limiterMax - 1) true ++ [false]) ∧
    (∀ (st : Option LimiterState) (t now : Int) (id : Nat) (b : Body),
      (rateLimitStep limiterWindowMs limiterMax st t).1 = false →
      (limitedIntake st t now id b).1 =
        { status := 429, error := none, message := limiterMessage,
          details := [], missingFields := [], verifierCalled := false,
          saved := none }) ∧
    (∀ (st : Option LimiterState) (t now : Int) (id : Nat) (b : Body),
      (rateLimitStep limiterWindowMs limiterMax st t).1 = true →
      (limitedIntake st t now id b).1 = intakeMod now id b) ∧
    (∀ (s : LimiterState) (t : Int),
      limiterWindowMs ≤ t - s.windowStart →
      rateLimitStep limiterWindowMs limiterMax (some s) t =
        (true, { count := 1, windowStart := t })) := by
  have hmx : limiterMax = 50 := rfl
  refine ⟨?_, ?_, ?_, ?_⟩
  · intro t0 ts hlen hin
    have hne : ts ≠ [] := by
      intro he
      rw [he] at hlen
      simp at hlen
      omega
    have hsplit := List.dropLast_append_getLast hne
    have hlast := hin (ts.getLast hne) (List.getLast_mem hne)
    have hdrop : ∀ t ∈ ts.dropLast, t0 ≤ t ∧ t - t0 < limiterWindowMs :=
      fun t htm => hin t (List.dropLast_subset ts htm)
    have hdl : ts.dropLast.length = limiterMax - 1 := by
      rw [List.length_dropLast, hlen]
    refine ⟨rfl, ?_⟩
    have hfirst : (rateLimitStep limiterWindowMs limiterMax none t0).2 =
        { count := 1, windowStart := t0 } := rfl
    rw [hfirst, ← hsplit, limiterProcess_append]
    have hmid := limiterProcess_all_allowed limiterWindowMs limiterMax
      ts.dropLast 1 t0 hdrop (by omega)
    have hrej : limiterProcess limiterWindowMs limiterMax
        { count := 1 + ts.dropLast.length, windowStart := t0 }
        [ts.getLast hne] =
        ([false], { count := 1 + ts.dropLast.length + 1, windowStart := t0 }) := by
      have hstep2 : rateLimitStep limiterWindowMs limiterMax
          (some { count := 1 + ts.dropLast.length, windowStart := t0 })
          (ts.getLast hne) =
          (false, { count := 1 + ts.dropLast.length + 1, windowStart := t0 }) := by
        simp only [rateLimitStep]
        rw [if_neg (by omega), if_pos (by omega)]
      simp only [limiterProcess, hstep2]
    rw [hdl] at hmid hrej
    rw [hmid]
    simp only [hrej]
  · intro st t now id b hrej
    simp [limitedIntake, hrej]
  · intro st t now id b hall
    simp [limitedIntake, hall]
  · intro s t helapsed
    simp only [rateLimitStep]
    rw [if_pos helapsed]

theorem c7_rate_limiter_witness :
    (limiterProcess limiterWindowMs limiterMax
      (rateLimitStep limiterWindowMs limiterMax none 0).2
      (List.replicate 50 0)).1 =
      List.replicate (limiterMax - 1) true ++ [false] ∧
    rateLimitStep limiterWindowMs limiterMax
      (some { count := 50, windowStart := 0 }) limiterWindowMs =
      (true, { count := 1, windowStart := limiterWindowMs }) := by
  have h1 := (c7_rate_limiter.1 0 (List.replicate 50 0) (by decide)
    (fun t ht => by
      have he := List.eq_of_mem_replicate ht
      subst he
      exact ⟨le_refl 0, by decide⟩)).2
  have h2 := c7_rate_limiter.2.2.2 { count := 50, windowStart := 0 }
    limiterWindowMs (by simp)
  exact ⟨h1, h2⟩
